import Mathlib

/-!
Verification development for the TeamCity → Prometheus exporter
(`src/app/main.py`).  The Python module is shallowly embedded: each
Python function becomes a Lean definition over explicit data, the
TeamCity REST surface becomes a record of response functions, Python
exceptions become an explicit error type threaded through `Except`,
and the Prometheus gauges become an explicit trace of write events.
-/

namespace TeamcityExporter

/-- Python exceptions that the embedded code can raise:
`httpError` models `requests.HTTPError` / `RequestException` from
`_tc_get_json`; `keyError` models a `dict[...]` access on a missing key;
`typeError` models `TypeError` (iterating `None`, or `float(None)` inside
`prometheus_client.Gauge.set`); `valueError` models
`datetime.strptime` / `int()` parse failures. -/
inductive PyErr where
  | httpError (msg : String)
  | keyError (key : String)
  | typeError (msg : String)
  | valueError (msg : String)
deriving
  DecidableEq, Repr

/-- Python truthiness of an optional string: `None` and the empty string
are falsy, every other string is truthy (used by `if not start_raw`,
`if not template_name`, `if v['startDate']`). -/
def truthyOpt : Option String → Bool
  | none => false
  | some s => s ≠ ""

/-- Python `obj[key]` on a JSON object field we model as `Option String`:
returns the value or raises `KeyError`. -/
def getField (o : Option String) (key : String) : Except PyErr String :=
  match o with
  | some v => .ok v
  | none => .error (.keyError key)

/-! ### `datetime.strptime(_, "%Y%m%dT%H%M%S%z")`, modelled for the
zero-padded `YYYYMMDDTHHMMSS±HHMM` form that TeamCity emits.  The result
is the absolute timestamp in seconds since the Unix epoch, so that
subtraction of two parsed values equals Python's
`(finish - start).total_seconds()` for timezone-aware datetimes. -/

/-- Numeric value of a decimal digit character. -/
def digitVal (c : Char) : Option Nat :=
  if c.isDigit then some (c.toNat - 48) else none

/-- Two-digit decimal field. -/
def parse2 (a b : Char) : Option Nat := do
  let x ← digitVal a
  let y ← digitVal b
  pure (10 * x + y)

/-- Gregorian leap year, as in Python's `datetime`. -/
def isLeap (y : Nat) : Bool :=
  (y % 4 == 0 && y % 100 != 0) || y % 400 == 0

/-- Days in a month (1..12) of year `y`, as validated by `datetime`. -/
def daysInMonth (y m : Nat) : Nat :=
  if m = 2 then (if isLeap y then 29 else 28)
  else if m = 4 ∨ m = 6 ∨ m = 9 ∨ m = 11 then 30
  else 31

/-- Days from 0000-03-01 to year `y`, month `m`, day `d` of the proleptic
Gregorian calendar (standard civil-date counting; for 1970-01-01 this
yields 719468). Assumes `1 ≤ y`, `1 ≤ m ≤ 12`, `1 ≤ d`. -/
def daysFromCivil (y m d : Nat) : Nat :=
  let yAdj := if m ≤ 2 then y - 1 else y
  let era := yAdj / 400
  let yoe := yAdj % 400
  let mp := (m + 9) % 12
  let doy := (153 * mp + 2) / 5 + (d - 1)
  let doe := yoe * 365 + yoe / 4 - yoe / 100 + doy
  era * 146097 + doe

/-- Seconds since the Unix epoch of a civil timestamp with a UTC offset
given in signed minutes (aware-`datetime` arithmetic). -/
def epochSeconds (y m d h mi s : Nat) (offMinutes : Int) : Int :=
  ((daysFromCivil y m d : Int) - 719468) * 86400
    + (h : Int) * 3600 + (mi : Int) * 60 + (s : Int) - offMinutes * 60

/-- Model of `datetime.strptime(s, "%Y%m%dT%H%M%S%z")` followed by
conversion to an absolute epoch second count.  Accepts exactly the
20-character `YYYYMMDDTHHMMSS±HHMM` shape TeamCity produces, with the
field-range validation `datetime` performs (month 1..12, day within the
month, hour ≤ 23, minute/second ≤ 59, |UTC offset| < 24 h, year ≥ 1);
returns `none` where Python raises `ValueError`. -/
def strptime_tz (s : String) : Option Int :=
  match s.toList with
  | [y1, y2, y3, y4, m1, m2, d1, d2, t, h1, h2, n1, n2, s1, s2, g, o1, o2, o3, o4] => do
    if t ≠ 'T' then none else
    let yh ← parse2 y1 y2
    let yl ← parse2 y3 y4
    let mo ← parse2 m1 m2
    let dd ← parse2 d1 d2
    let hh ← parse2 h1 h2
    let mi ← parse2 n1 n2
    let ss ← parse2 s1 s2
    let oh ← parse2 o1 o2
    let om ← parse2 o3 o4
    let y := 100 * yh + yl
    if (g = '+' ∨ g = '-') ∧ 1 ≤ y ∧ 1 ≤ mo ∧ mo ≤ 12 ∧ 1 ≤ dd ∧ dd ≤ daysInMonth y mo
        ∧ hh ≤ 23 ∧ mi ≤ 59 ∧ ss ≤ 59 ∧ oh * 60 + om < 1440 then
      let offMin : Int := if g = '+' then (oh * 60 + om : Nat) else -(oh * 60 + om : Nat)
      some (epochSeconds y mo dd hh mi ss offMin)
    else none
  | _ => none

/-- Embedding of `build_duration_seconds(build)` (main.py lines 154-173).
Takes the `startDate` / `finishDate` fields obtained via `dict.get`.
Returns `ok none` when either is absent or empty (`if not start_raw or
not finish_raw: return None`); otherwise parses both with
`strptime(..., "%Y%m%dT%H%M%S%z")` — a malformed value raises
`ValueError` — and returns `int((finish - start).total_seconds())`,
which for whole-second timestamps is exactly the signed difference of
the two epoch values (no clamping of negative results). -/
def build_duration_seconds (startDate finishDate : Option String) :
    Except PyErr (Option Int) :=
  if ¬ truthyOpt startDate ∨ ¬ truthyOpt finishDate then .ok none
  else
    match strptime_tz (startDate.getD "") with
    | none => .error (.valueError "strptime startDate")
    | some startE =>
      match strptime_tz (finishDate.getD "") with
      | none => .error (.valueError "strptime finishDate")
      | some finishE => .ok (some (finishE - startE))

/-- Embedding of the status mapping on main.py line 271:
`{"SUCCESS": 1, "FAILURE": 0, "NO_BUILDS": -1}.get(status, -1)`. -/
def status_value (status : String) : Int :=
  if status = "SUCCESS" then 1
  else if status = "FAILURE" then 0
  else if status = "NO_BUILDS" then -1
  else -1

/-! ### Data model: JSON objects returned by the TeamCity REST API. -/

/-- A build-configuration object from `GET /app/rest/buildTypes`
(`get_build_configs_from_template`).  The cycle accesses `projectId`,
`id`, `name`, `webUrl`, `projectName` with `cfg[...]`; all are required
fields of the TeamCity buildType JSON.  Paused configurations are
filtered out server-side by the `paused:false` locator. -/
structure BuildConfig where
  id : String
  name : String
  projectId : String
  projectName : String
  webUrl : String
deriving
  DecidableEq, Repr

/-- A build object, with the fields projected by the `fields=` query
parameters of `get_last_build_status` / `get_upstream_chain_nodes`.
Every field may be absent from the JSON (`Option`), matching the
`dict.get` / `dict[...]` accesses in the source; the synthetic
`NO_BUILDS` object carries only `status`. -/
structure BuildJson where
  id : Option String := none
  number : Option String := none
  buildTypeId : Option String := none
  startDate : Option String := none
  finishDate : Option String := none
  status : Option String := none
deriving
  DecidableEq, Repr

/-- One entry of the `templates(buildType)` projection: `each_template.get('id')`. -/
structure TemplateRef where
  id : Option String
deriving
  DecidableEq, Repr

/-- Value of the `templates` field of a buildType object; its
`buildType` member may itself be absent (then `templates_list['buildType']`
raises `KeyError`). -/
structure TemplatesField where
  buildType : Option (List TemplateRef)
deriving
  DecidableEq, Repr

/-- The TeamCity REST surface as seen through `_tc_get_json`, one field
per endpoint used by the module.  Each field returns the piece of the
parsed JSON the caller extracts, or a `PyErr` for a raised
`requests` exception (`r.raise_for_status()` / transport error):
* `projects_archived` — ids from `GET /app/rest/projects?locator=archived:true`;
* `buildTypes_for_template` — `data.get("buildType", [])` from
  `GET /app/rest/buildTypes?locator=template:...,paused:false`;
* `builds_for_buildType` — `data.get("build")` (absent key gives `none`)
  from `GET /app/rest/builds?locator=buildType:...,count:1`;
* `project_webUrl` — `data.get("webUrl")` from `GET /app/rest/projects/id:...`;
* `builds_upstream` — `data.get("build")` from
  `GET /app/rest/builds?locator=snapshotDependency:(to:(id:...)),defaultFilter:false`;
* `templates_of_buildType` — `js.get('templates')` from
  `GET /app/rest/buildTypes/id:...?fields=templates(buildType)`. -/
structure Api where
  projects_archived : Except PyErr (List String)
  buildTypes_for_template : String → Except PyErr (List BuildConfig)
  builds_for_buildType : String → Except PyErr (Option (List BuildJson))
  project_webUrl : String → Except PyErr (Option String)
  builds_upstream : String → Except PyErr (Option (List BuildJson))
  templates_of_buildType : String → Except PyErr (Option TemplatesField)

/-- Environment-derived module configuration used by the cycle
(main.py lines 37-42, after comma-splitting and stripping). -/
structure Settings where
  TEMPLATE_IDS : List String
  START_PROJECT_CHAIN : List String
  STOP_PROJECT_CHAIN : List String
deriving
  DecidableEq, Repr

/-! ### CI client functions. -/

/-- Embedding of `get_last_build_status(build_type_id)` (lines 129-151):
requests one build for the configuration; when the response has no
`build` list or an empty one (`if not last_build`), returns the
synthetic `{'status': 'NO_BUILDS'}` object, else the first element. -/
def get_last_build_status (api : Api) (build_type_id : String) :
    Except PyErr BuildJson :=
  match api.builds_for_buildType build_type_id with
  | .error e => .error e
  | .ok none => .ok { status := some "NO_BUILDS" }
  | .ok (some []) => .ok { status := some "NO_BUILDS" }
  | .ok (some (b :: _)) => .ok b

/-- Loop body of `get_template_names_for_build_type_id`: return the first
template id that is a member of `START_PROJECT_CHAIN` (`None` ids are
never members and are skipped). -/
def firstStartTemplate (startChain : List String) : List TemplateRef → Option String
  | [] => none
  | t :: rest =>
    match t.id with
    | some i => if i ∈ startChain then some i else firstStartTemplate startChain rest
    | none => firstStartTemplate startChain rest

/-- Embedding of `get_template_names_for_build_type_id(build_type_id)`
(lines 214-230): fetch `templates(buildType)`; a missing `templates`
field defaults to `{"buildType": []}`; a present `templates` object
without a `buildType` member raises `KeyError`; otherwise scan for the
first template id contained in `START_PROJECT_CHAIN`. -/
def get_template_names_for_build_type_id (cfgs : Settings) (api : Api)
    (build_type_id : String) : Except PyErr (Option String) :=
  match api.templates_of_buildType build_type_id with
  | .error e => .error e
  | .ok js =>
    let templates_list := js.getD { buildType := some [] }
    match templates_list.buildType with
    | none => .error (.keyError "buildType")
    | some lst => .ok (firstStartTemplate cfgs.START_PROJECT_CHAIN lst)

/-- Loop of `get_start_date_by_last_build_id` over the upstream nodes:
for each dependency, look up its start template (`KeyError` if the node
lacks `buildTypeId`); a falsy result means `continue`; a truthy one
returns `each_dependencies['startDate']` immediately. -/
def startDateLoop (cfgs : Settings) (api : Api) :
    List BuildJson → Except PyErr (Option String)
  | [] => .ok none
  | n :: rest =>
    match getField n.buildTypeId "buildTypeId" with
    | .error e => .error e
    | .ok btid =>
      match get_template_names_for_build_type_id cfgs api btid with
      | .error e => .error e
      | .ok template_name =>
        if truthyOpt template_name then
          match getField n.startDate "startDate" with
          | .error e => .error e
          | .ok sd => .ok (some sd)
        else startDateLoop cfgs api rest

/-- Embedding of `get_start_date_by_last_build_id(build_id)`
(lines 232-249) composed with `get_upstream_chain_nodes` (lines 194-211):
fetch the direct upstream snapshot-dependency builds; when the response
carries no `build` list, `get_upstream_chain_nodes` returns `None` and
the `for` loop over it raises `TypeError`; otherwise scan one hop of
ancestry as in `startDateLoop`. -/
def get_start_date_by_last_build_id (cfgs : Settings) (api : Api)
    (build_id : String) : Except PyErr (Option String) :=
  match api.builds_upstream build_id with
  | .error e => .error e
  | .ok none => .error (.typeError "NoneType object is not iterable")
  | .ok (some nodes) => startDateLoop cfgs api nodes

/-! ### The Prometheus gauges, modelled as a trace of write events. -/

/-- Label tuple of `BUILD_STATUS_GAUGE` and `BUILD_DURATION_GAUGE`. -/
structure BuildLabels where
  build_type_name : String
  template_id : String
  build_type_id : String
  build_url : String
deriving
  DecidableEq, Repr

/-- Label tuple of `PROJECT_DURATION_GAUGE`.  `prometheus_client`
stringifies label values, so the `Option` models `get_project_url`
possibly supplying `None` (rendered as the string `None`). -/
structure ProjectLabels where
  projectId : String
  project_url : Option String
  project_name : String
  finished_number : String
deriving
  DecidableEq, Repr

/-- One successful `Gauge.labels(...).set(value)` call. -/
inductive GaugeWrite where
  | buildStatus (labels : BuildLabels) (value : Int)
  | buildDuration (labels : BuildLabels) (value : Int)
  | projectDuration (labels : ProjectLabels) (value : Int)
deriving
  DecidableEq, Repr

/-- Semantics of `prometheus_client.Gauge.set(value)` for an int-or-None
value: `set` coerces with `float(value)`, and `float(None)` raises
`TypeError`, so setting a `None` duration raises rather than writing. -/
def gaugeSet (v : Option Int) : Except PyErr Int :=
  match v with
  | none => .error (.typeError "float argument must not be NoneType")
  | some n => .ok n

/-! ### The aggregation cycle (`fetch_and_update_metrics`, lines 251-307). -/

/-- One value of the `all_projects` dict (lines 276-281). -/
structure RollupEntry where
  startDate : Option String
  finishDate : String
  project_name : String
  project_url : Option String
  finished_number : String
  finish_build_id : String
deriving
  DecidableEq, Repr

/-- The `all_projects` dict: insertion-ordered association list keyed by
`projectId`, as a Python dict iterates in insertion order. -/
abbrev RollupMap : Type := List (String × RollupEntry)

/-- Python `all_projects[key]` lookup. -/
def lookupAssoc : RollupMap → String → Option RollupEntry
  | [], _ => none
  | (k, v) :: rest, key => if k = key then some v else lookupAssoc rest key

/-- Python `all_projects[key] = value`: overwrites the value in place
when the key exists (keeping its insertion position), else appends. -/
def dictSet : RollupMap → String → RollupEntry → RollupMap
  | [], key, val => [(key, val)]
  | (k, v) :: rest, key, val =>
    if k = key then (key, val) :: rest else (k, v) :: dictSet rest key val

/-- Staging of a project rollup (lines 275-281): when the template is in
`STOP_PROJECT_CHAIN`, build the `all_projects[current_project_id]` entry,
evaluating exactly the source's dict-literal in order: `last_build['id']`,
the chain resolver, `last_build['finishDate']`, `cfg['projectName']`,
`get_project_url(...)`, `last_build['number']`. -/
def stageRollup (cfgs : Settings) (api : Api) (template_id : String)
    (cfg : BuildConfig) (last_build : BuildJson) (all_projects : RollupMap) :
    Except PyErr RollupMap :=
  if template_id ∈ cfgs.STOP_PROJECT_CHAIN then
    match getField last_build.id "id" with
    | .error e => .error e
    | .ok lbid =>
      match get_start_date_by_last_build_id cfgs api lbid with
      | .error e => .error e
      | .ok sd =>
        match getField last_build.finishDate "finishDate" with
        | .error e => .error e
        | .ok fd =>
          match api.project_webUrl cfg.projectId with
          | .error e => .error e
          | .ok purl =>
            match getField last_build.number "number" with
            | .error e => .error e
            | .ok num =>
              .ok (dictSet all_projects cfg.projectId
                    ⟨sd, fd, cfg.projectName, purl, num, lbid⟩)
  else .ok all_projects

/-- Processing of one build configuration (lines 266-293): skip archived
projects entirely; else fetch the latest build, compute the status code,
and — on `SUCCESS` — compute the duration, stage the rollup for stop
templates, and set the duration gauge (which raises `TypeError` when the
duration is `None`); finally set the status gauge.  Returns the gauge
writes this configuration performed and the updated `all_projects`. -/
def processConfig (cfgs : Settings) (api : Api) (template_id : String)
    (cfg : BuildConfig) (archived_projects : List String)
    (all_projects : RollupMap) :
    Except PyErr (List GaugeWrite × RollupMap) :=
  if cfg.projectId ∈ archived_projects then .ok ([], all_projects)
  else
    match get_last_build_status api cfg.id with
    | .error e => .error e
    | .ok last_build =>
      match getField last_build.status "status" with
      | .error e => .error e
      | .ok status =>
        let sv := status_value status
        let labels : BuildLabels := ⟨cfg.name, template_id, cfg.id, cfg.webUrl⟩
        if status = "SUCCESS" then
          match build_duration_seconds last_build.startDate last_build.finishDate with
          | .error e => .error e
          | .ok duration =>
            match stageRollup cfgs api template_id cfg last_build all_projects with
            | .error e => .error e
            | .ok all_projects2 =>
              match gaugeSet duration with
              | .error e => .error e
              | .ok d =>
                .ok ([.buildDuration labels d, .buildStatus labels sv], all_projects2)
        else .ok ([.buildStatus labels sv], all_projects)

/-- The inner `for cfg in build_configs` loop: gauge writes from
configurations processed before a raised exception are retained. -/
def processConfigs (cfgs : Settings) (api : Api) (template_id : String)
    (archived_projects : List String) :
    List BuildConfig → RollupMap → List GaugeWrite × Except PyErr RollupMap
  | [], ap => ([], .ok ap)
  | cfg :: rest, ap =>
    match processConfig cfgs api template_id cfg archived_projects ap with
    | .error e => ([], .error e)
    | .ok (ws, ap2) =>
      let (ws2, r) := processConfigs cfgs api template_id archived_projects rest ap2
      (ws ++ ws2, r)

/-- The outer `for template_id in TEMPLATE_IDS` loop (lines 263-293). -/
def processTemplates (cfgs : Settings) (api : Api)
    (archived_projects : List String) :
    List String → RollupMap → List GaugeWrite × Except PyErr RollupMap
  | [], ap => ([], .ok ap)
  | tid :: rest, ap =>
    match api.buildTypes_for_template tid with
    | .error e => ([], .error e)
    | .ok build_configs =>
      match processConfigs cfgs api tid archived_projects build_configs ap with
      | (ws, .error e) => (ws, .error e)
      | (ws, .ok ap2) =>
        let (ws2, r) := processTemplates cfgs api archived_projects rest ap2
        (ws ++ ws2, r)

/-- The rollup emission loop (lines 295-303): for each staged entry with
a truthy `startDate`, recompute the span with `build_duration_seconds`
and set `PROJECT_DURATION_GAUGE`.  Returns the writes performed and the
exception, if one was raised mid-loop. -/
def rollupLoop : RollupMap → List GaugeWrite × Option PyErr
  | [] => ([], none)
  | (k, v) :: rest =>
    if truthyOpt v.startDate then
      match build_duration_seconds v.startDate (some v.finishDate) with
      | .error e => ([], some e)
      | .ok full_duration =>
        match gaugeSet full_duration with
        | .error e => ([], some e)
        | .ok d =>
          let (ws, r) := rollupLoop rest
          (.projectDuration ⟨k, v.project_url, v.project_name, v.finished_number⟩ d :: ws, r)
    else rollupLoop rest

/-- How one iteration of the `while True` loop ended:
`normal` — the `try` body completed; `caught` — an exception raised
inside the `try` was caught and logged by the `except` clause (the cycle
remainder was abandoned, the loop sleeps and continues); `escaped` — an
exception was raised outside the `try` (by `get_archived_projects()` on
line 260) and propagates out of `fetch_and_update_metrics`, terminating
the polling thread. -/
inductive CycleEnd where
  | normal
  | caught (e : PyErr)
  | escaped (e : PyErr)
deriving
  DecidableEq, Repr

/-- The `try` body of one cycle (lines 262-303): the template traversal
followed by the rollup emission loop. -/
def tryBody (cfgs : Settings) (api : Api) (archived_projects : List String) :
    List GaugeWrite × Except PyErr Unit :=
  match processTemplates cfgs api archived_projects cfgs.TEMPLATE_IDS [] with
  | (ws, .error e) => (ws, .error e)
  | (ws, .ok all_projects) =>
    match rollupLoop all_projects with
    | (ws2, none) => (ws ++ ws2, .ok ())
    | (ws2, some e) => (ws ++ ws2, .error e)

/-- One iteration of the `while True` loop (lines 259-307):
`get_archived_projects()` runs *before* the `try`, so its exception
escapes; exceptions inside the `try` are caught and logged.  Returns the
gauge writes the iteration performed and how it ended. -/
def runCycle (cfgs : Settings) (api : Api) : List GaugeWrite × CycleEnd :=
  match api.projects_archived with
  | .error e => ([], .escaped e)
  | .ok archived_projects =>
    match tryBody cfgs api archived_projects with
    | (ws, .ok _) => (ws, .normal)
    | (ws, .error e) => (ws, .caught e)

/-- The scheduler: run up to `n` iterations of the `while True` loop,
each against the corresponding element of the cycle-indexed API stream;
an escaped exception terminates the loop (the polling thread dies), a
caught one is followed by `time.sleep(SCRAPE_INTERVAL)` and the next
iteration. -/
def runLoop (cfgs : Settings) (apis : Nat → Api) : Nat → List (List GaugeWrite × CycleEnd)
  | 0 => []
  | n + 1 =>
    let r := runCycle cfgs (apis 0)
    match r.2 with
    | .escaped _ => [r]
    | _ => r :: runLoop cfgs (fun i => apis (i + 1)) n

/-! ### Startup: module-level configuration parsing and the `__main__` guard. -/

/-- Digit run of a Python integer literal string after the first digit:
single underscores are allowed between digits only. -/
def pyDigits : List Char → Nat → Option Nat
  | [], acc => some acc
  | '_' :: c :: rest, acc =>
    match digitVal c with
    | some d => pyDigits rest (acc * 10 + d)
    | none => none
  | ['_'], _ => none
  | c :: rest, acc =>
    match digitVal c with
    | some d => pyDigits rest (acc * 10 + d)
    | none => none

/-- ASCII whitespace as recognised by Python `str.strip()` (sufficient
for the environment strings handled here). -/
def isPySpace (c : Char) : Bool :=
  c = ' ' ∨ c = '\t' ∨ c = '\n' ∨ c = '\r' ∨ c = '\x0b' ∨ c = '\x0c'

/-- Model of Python `str.strip()`: drop leading and trailing whitespace. -/
def pyStrip (s : String) : String :=
  String.mk (((s.toList.dropWhile isPySpace).reverse.dropWhile isPySpace).reverse)

/-- Splitting on every comma, as Python `s.split(",")` does (adjacent or
leading/trailing commas produce empty pieces). -/
def splitCommaAux : List Char → List Char → List String
  | [], acc => [String.mk acc.reverse]
  | ',' :: rest, acc => String.mk acc.reverse :: splitCommaAux rest []
  | c :: rest, acc => splitCommaAux rest (c :: acc)

/-- Python `s.split(",")`. -/
def pySplitComma (s : String) : List String :=
  splitCommaAux s.toList []

/-- Model of Python `int(s)` for a decimal string: surrounding whitespace
is stripped, an optional sign precedes a nonempty digit run (underscores
permitted between digits); anything else raises `ValueError` (`none`). -/
def pyInt (s : String) : Option Int :=
  match (pyStrip s).toList with
  | '+' :: c :: rest => do
    let d ← digitVal c
    let n ← pyDigits rest d
    pure (Int.ofNat n)
  | '-' :: c :: rest => do
    let d ← digitVal c
    let n ← pyDigits rest d
    pure (-(Int.ofNat n : Int))
  | c :: rest => do
    let d ← digitVal c
    let n ← pyDigits rest d
    pure (Int.ofNat n)
  | [] => none

/-- The comma-list parsing applied to `TEAMCITY_TEMPLATE_IDS`,
`START_PROJECT_CHAIN` and `STOP_PROJECT_CHAIN` (lines 37-42):
`[tid.strip() for tid in s.split(",") if tid.strip()]`. -/
def parseEnvList (s : String) : List String :=
  ((pySplitComma s).map pyStrip).filter (fun t => t ≠ "")

/-- The process environment: a partial map from variable name to value. -/
abbrev Env : Type := String → Option String

/-- Line 43: `SCRAPE_INTERVAL = int(os.environ.get("SCRAPE_INTERVAL", 84600))`
— the default is the `int` 84600 itself, so `int()` cannot fail on it. -/
def moduleInterval (env : Env) : Option Int :=
  match env "SCRAPE_INTERVAL" with
  | none => some 84600
  | some s => pyInt s

/-- Line 44: `METRICS_PORT = int(os.getenv("METRICS_PORT", "8000"))`
— the default is the string `"8000"`, parsed by `int()`. -/
def modulePort (env : Env) : Option Int :=
  match env "METRICS_PORT" with
  | none => pyInt "8000"
  | some s => pyInt s

/-- Outcome of starting the process (`python main.py`):
* `initError` — `int()` raised `ValueError` while the module body
  executed (lines 43-44), before the `__main__` guard: abnormal,
  non-zero termination with no metrics server and no polling thread;
* `configError` — the `__main__` guard (lines 310-314) found
  `TEAMCITY_URL`, `TEAMCITY_TOKEN` or the parsed `TEAMCITY_TEMPLATE_IDS`
  list falsy and raised `EnvironmentError`: abnormal, non-zero
  termination before `start_http_server` and before the polling thread;
* `started port interval` — `start_http_server(METRICS_PORT)` ran and
  the `fetch_and_update_metrics` thread was started; the process then
  runs until killed. -/
inductive StartupOutcome where
  | initError
  | configError
  | started (port : Int) (interval : Int)
deriving
  DecidableEq, Repr

/-- Embedding of process startup: the module-level parses of lines 35-44
followed by the `__main__` guard of lines 310-318
(`if not all([TEAMCITY_URL, TOKEN, TEMPLATE_IDS]): raise EnvironmentError`,
with `TEMPLATE_IDS` already split into a list, so `None`, the empty
string and the empty list are the falsy cases). -/
def startup (env : Env) : StartupOutcome :=
  match moduleInterval env with
  | none => .initError
  | some interval =>
    match modulePort env with
    | none => .initError
    | some port =>
      let url := env "TEAMCITY_URL"
      let token := env "TEAMCITY_TOKEN"
      let template_ids := parseEnvList ((env "TEAMCITY_TEMPLATE_IDS").getD "")
      if ¬ truthyOpt url ∨ ¬ truthyOpt token ∨ template_ids = [] then .configError
      else .started port interval

/-! ### Spec-side helper for chain resolution (claim C3). -/

/-- A direct upstream node "matches" when its build configuration can be
resolved and carries a template of the configured start set: this is the
predicate under which `get_start_date_by_last_build_id` stops and
returns the node's `startDate`. -/
def nodeMatches (cfgs : Settings) (api : Api) (n : BuildJson) : Bool :=
  match n.buildTypeId with
  | none => false
  | some bt =>
    match get_template_names_for_build_type_id cfgs api bt with
    | .error _ => false
    | .ok r => truthyOpt r

/-! ### Concrete instances used to exercise the theorems. -/

/-- A TeamCity with no archived projects, no configs, no builds. -/
def idleApi : Api where
  projects_archived := .ok []
  buildTypes_for_template := fun _ => .ok []
  builds_for_buildType := fun _ => .ok none
  project_webUrl := fun _ => .ok none
  builds_upstream := fun _ => .ok none
  templates_of_buildType := fun _ => .ok (some { buildType := some [] })

/-- Settings with one polled template `Stop` that is both the stop
template; `Start` is the start template. -/
def sampleSettings : Settings := ⟨["Stop"], ["Start"], ["Stop"]⟩

/-- A stop-template configuration in project `P`. -/
def cfgC : BuildConfig := ⟨"C", "Config C", "P", "Project P", "http://tc/C"⟩

/-- Latest build of `cfgC`: a 300-second `SUCCESS` build. -/
def buildB2 : BuildJson :=
  ⟨some "2", some "42", some "C", some "20240102T100000+0000",
   some "20240102T100500+0000", some "SUCCESS"⟩

/-- Direct upstream snapshot dependency of `buildB2`, produced by a
configuration carrying the `Start` template. -/
def nodeB1 : BuildJson :=
  ⟨some "1", some "7", some "startBT", some "20240102T090000+0000",
   some "20240102T095500+0000", some "SUCCESS"⟩

/-- The spec's two-tier chain scenario: `cfgC` (stop) with latest build
`buildB2`, whose sole upstream `nodeB1` comes from a `Start`-templated
configuration. -/
def sampleApi : Api :=
  { idleApi with
    buildTypes_for_template := fun t => if t = "Stop" then .ok [cfgC] else .ok [],
    builds_for_buildType := fun bt => if bt = "C" then .ok (some [buildB2]) else .ok none,
    builds_upstream := fun bid => if bid = "2" then .ok (some [nodeB1]) else .ok none,
    templates_of_buildType := fun bt =>
      if bt = "startBT" then .ok (some ⟨some [⟨some "Start"⟩]⟩)
      else .ok (some ⟨some []⟩),
    project_webUrl := fun p => if p = "P" then .ok (some "http://tc/P") else .ok none }

/-- Settings with a single polled template and no chain templates. -/
def plainSettings : Settings := ⟨["T1"], [], []⟩

/-- A configuration whose latest build finished before it started. -/
def cfgN : BuildConfig := ⟨"N", "Config N", "PN", "Project N", "http://tc/N"⟩

/-- A `SUCCESS` build whose `finishDate` precedes its `startDate` by 300 s. -/
def buildNeg : BuildJson :=
  ⟨some "9", some "9", some "N", some "20240102T100500+0000",
   some "20240102T100000+0000", some "SUCCESS"⟩

/-- API serving only `cfgN` with the time-reversed build. -/
def apiNeg : Api :=
  { idleApi with
    buildTypes_for_template := fun t => if t = "T1" then .ok [cfgN] else .ok [],
    builds_for_buildType := fun bt => if bt = "N" then .ok (some [buildNeg]) else .ok none }

/-- A configuration whose latest build failed. -/
def cfgF : BuildConfig := ⟨"F", "Config F", "PF", "Project F", "http://tc/F"⟩

/-- A `FAILURE` build. -/
def buildFail : BuildJson :=
  ⟨some "5", some "5", some "F", some "20240102T100000+0000",
   some "20240102T100300+0000", some "FAILURE"⟩

/-- API serving only `cfgF` with the failed build. -/
def apiFail : Api :=
  { idleApi with
    buildTypes_for_template := fun t => if t = "T1" then .ok [cfgF] else .ok [],
    builds_for_buildType := fun bt => if bt = "F" then .ok (some [buildFail]) else .ok none }

/-- Middle node of a three-tier chain: direct upstream of build `200`,
from a configuration templated `MidTpl` (not a start template). -/
def nodeMid : BuildJson :=
  ⟨some "150", some "3", some "midBT", some "20240102T090000+0000",
   some "20240102T093000+0000", some "SUCCESS"⟩

/-- Deepest node: upstream of build `150`, from a `Start`-templated
configuration — two hops away from build `200`. -/
def nodeDeepStart : BuildJson :=
  ⟨some "120", some "1", some "startBT", some "20240102T080000+0000",
   some "20240102T083000+0000", some "SUCCESS"⟩

/-- API for the two-hop-deep chain: the start template is reachable only
through the middle build, never as a direct ancestor of build `200`. -/
def twoHopApi : Api :=
  { idleApi with
    builds_upstream := fun bid =>
      if bid = "200" then .ok (some [nodeMid])
      else if bid = "150" then .ok (some [nodeDeepStart])
      else .ok none,
    templates_of_buildType := fun bt =>
      if bt = "startBT" then .ok (some ⟨some [⟨some "Start"⟩]⟩)
      else if bt = "midBT" then .ok (some ⟨some [⟨some "MidTpl"⟩]⟩)
      else .ok (some ⟨some []⟩) }

/-- Settings polling two templates, used for mid-cycle-failure scenarios. -/
def twoTemplateSettings : Settings := ⟨["T1", "T2"], [], []⟩

/-- API whose archived-projects listing (step 1 of the cycle) raises. -/
def apiArchFail : Api :=
  { idleApi with projects_archived := .error (.httpError "500 Internal Server Error") }

/-- API where template `T1` serves the failed build of `cfgF` and the
config listing for template `T2` raises mid-cycle. -/
def apiMidFail : Api :=
  { idleApi with
    buildTypes_for_template := fun t =>
      if t = "T1" then .ok [cfgF]
      else .error (.httpError "503 Service Unavailable"),
    builds_for_buildType := fun bt => if bt = "F" then .ok (some [buildFail]) else .ok none }

/-- A `SUCCESS` build with a missing `finishDate`. -/
def buildNoFinish : BuildJson :=
  ⟨some "8", some "8", some "A", some "20240102T100000+0000", none, some "SUCCESS"⟩

/-- Configuration `A`, whose latest build lacks `finishDate`. -/
def cfgA : BuildConfig := ⟨"A", "Config A", "PA", "Project A", "http://tc/A"⟩

/-- API serving `cfgA` (SUCCESS build without `finishDate`) followed by
`cfgF` (valid FAILURE build) under the same template. -/
def apiNoFinish : Api :=
  { idleApi with
    buildTypes_for_template := fun t => if t = "T1" then .ok [cfgA, cfgF] else .ok [],
    builds_for_buildType := fun bt =>
      if bt = "A" then .ok (some [buildNoFinish])
      else if bt = "F" then .ok (some [buildFail])
      else .ok none }

/-- API serving only `cfgF`, for contrast with `apiNoFinish`. -/
def apiOnlyFail : Api :=
  { idleApi with
    buildTypes_for_template := fun t => if t = "T1" then .ok [cfgF] else .ok [],
    builds_for_buildType := fun bt => if bt = "F" then .ok (some [buildFail]) else .ok none }

/-- The empty environment: every variable unset. -/
def envEmpty : Env := fun _ => none

/-- An environment lacking `TEAMCITY_URL`. -/
def envMissingUrl : Env := fun k =>
  if k = "TEAMCITY_TOKEN" then some "tok"
  else if k = "TEAMCITY_TEMPLATE_IDS" then some "Stop"
  else none

/-- An environment carrying exactly the three required settings. -/
def envFull : Env := fun k =>
  if k = "TEAMCITY_URL" then some "http://tc"
  else if k = "TEAMCITY_TOKEN" then some "tok"
  else if k = "TEAMCITY_TEMPLATE_IDS" then some "Stop, Start"
  else none

/-- A full environment whose `SCRAPE_INTERVAL` is not an integer. -/
def envBadInterval : Env := fun k =>
  if k = "SCRAPE_INTERVAL" then some "daily" else envFull k

/-- A full environment whose `METRICS_PORT` is not an integer. -/
def envBadPort : Env := fun k =>
  if k = "METRICS_PORT" then some "80a0" else envFull k

/-- A sample staged rollup entry. -/
def entryOld : RollupEntry :=
  ⟨some "20240102T090000+0000", "20240102T100500+0000", "Old name", none, "40", "11"⟩

/-- A second staged rollup entry for the same project id. -/
def entryNew : RollupEntry :=
  ⟨some "20240102T091000+0000", "20240102T101500+0000", "New name",
   some "http://tc/P", "41", "12"⟩

/-- A staged entry whose chain start was not resolved. -/
def entryNoStart : RollupEntry :=
  ⟨none, "20240102T101500+0000", "Other name", none, "43", "13"⟩

/-! ### Helper lemmas. -/

/-- `build_duration_seconds` on two present, parseable timestamps is the
signed difference of their epoch values. -/
theorem build_duration_seconds_parsed (sRaw fRaw : String) (sE fE : Int)
    (hs : sRaw ≠ "") (hf : fRaw ≠ "")
    (hps : strptime_tz sRaw = some sE) (hpf : strptime_tz fRaw = some fE) :
    build_duration_seconds (some sRaw) (some fRaw) = .ok (some (fE - sE)) := by
  simp [build_duration_seconds, truthyOpt, hs, hf, hps, hpf]

/-- Dict lookup after dict assignment yields the assigned value. -/
theorem lookupAssoc_dictSet (m : RollupMap) (k : String) (v : RollupEntry) :
    lookupAssoc (dictSet m k v) k = some v := by
  induction m with
  | nil => simp [dictSet, lookupAssoc]
  | cons hd rest ih =>
    obtain ⟨k2, v2⟩ := hd
    by_cases h : k2 = k
    · simp [dictSet, h, lookupAssoc]
    · simp [dictSet, h, lookupAssoc, ih]

/-- `get_template_names_for_build_type_id` consults only the
`templates_of_buildType` endpoint. -/
theorem get_template_names_congr (cfgs : Settings) (api api2 : Api)
    (bt : String)
    (h : api2.templates_of_buildType bt = api.templates_of_buildType bt) :
    get_template_names_for_build_type_id cfgs api2 bt
      = get_template_names_for_build_type_id cfgs api bt := by
  simp [get_template_names_for_build_type_id, h]

/-- The upstream-node scan consults only the templates endpoint. -/
theorem startDateLoop_congr (cfgs : Settings) (api api2 : Api)
    (h : ∀ b, api2.templates_of_buildType b = api.templates_of_buildType b) :
    ∀ nodes, startDateLoop cfgs api2 nodes = startDateLoop cfgs api nodes := by
  intro nodes
  induction nodes with
  | nil => rfl
  | cons n rest ih =>
    have hc : ∀ btid, get_template_names_for_build_type_id cfgs api2 btid
        = get_template_names_for_build_type_id cfgs api btid :=
      fun btid => get_template_names_congr cfgs api api2 btid (h btid)
    simp only [startDateLoop, hc, ih]

/-- When every direct upstream node has a `buildTypeId`, a `startDate`,
and a template lookup that does not raise, the scan returns the
`startDate` of the first node matching the start-template set. -/
theorem startDateLoop_eq_find (cfgs : Settings) (api : Api)
    (nodes : List BuildJson)
    (hbt : ∀ n ∈ nodes, ∃ bt, n.buildTypeId = some bt ∧
        ∃ r, get_template_names_for_build_type_id cfgs api bt = .ok r)
    (hsd : ∀ n ∈ nodes, ∃ sd, n.startDate = some sd) :
    startDateLoop cfgs api nodes
      = .ok ((nodes.find? (nodeMatches cfgs api)).bind (fun n => n.startDate)) := by
  induction nodes with
  | nil => simp [startDateLoop]
  | cons n rest ih =>
    obtain ⟨bt, hbt1, r, hr⟩ := hbt n (List.mem_cons_self n rest)
    obtain ⟨sd, hsd1⟩ := hsd n (List.mem_cons_self n rest)
    have hmatch : nodeMatches cfgs api n = truthyOpt r := by
      simp [nodeMatches, hbt1, hr]
    by_cases ht : truthyOpt r
    · simp [startDateLoop, getField, hbt1, hr, ht, List.find?_cons, hmatch, hsd1]
    · have ih2 := ih (fun m hm => hbt m (List.mem_cons_of_mem n hm))
        (fun m hm => hsd m (List.mem_cons_of_mem n hm))
      simp [startDateLoop, getField, hbt1, hr, ht, List.find?_cons, hmatch, ih2]

/-- Every `project_duration_seconds` write produced by the rollup loop
carries the key of some staged entry as its `projectId` label. -/
theorem rollupLoop_write_key (ap : RollupMap) (ws : List GaugeWrite)
    (r : Option PyErr) (h : rollupLoop ap = (ws, r)) (l : ProjectLabels)
    (d : Int) (hw : GaugeWrite.projectDuration l d ∈ ws) :
    l.projectId ∈ ap.map Prod.fst := by
  induction ap generalizing ws r with
  | nil =>
    simp only [rollupLoop] at h
    cases h
    simp at hw
  | cons hd rest ih =>
    obtain ⟨k, v⟩ := hd
    by_cases ht : truthyOpt v.startDate
    · cases hbd : build_duration_seconds v.startDate (some v.finishDate) with
      | error e =>
        simp only [rollupLoop, if_pos ht, hbd] at h
        cases h
        simp at hw
      | ok fd =>
        cases hgs : gaugeSet fd with
        | error e =>
          simp only [rollupLoop, if_pos ht, hbd, hgs] at h
          cases h
          simp at hw
        | ok dv =>
          cases hrr : rollupLoop rest with
          | mk ws2 r2 =>
            simp only [rollupLoop, if_pos ht, hbd, hgs, hrr] at h
            cases h
            rcases List.mem_cons.mp hw with h1 | h2
            · cases h1
              simp
            · simp only [List.map_cons]
              exact List.mem_cons_of_mem _ (ih ws2 r hrr h2)
    · simp only [rollupLoop, if_neg ht] at h
      simp [ih ws r h hw]

/-- A staged entry with a present, nonempty, parseable start date is
emitted by a rollup loop that completes without raising, with the value
`finish − start` in epoch seconds. -/
theorem rollupLoop_emits (ap : RollupMap) (ws : List GaugeWrite)
    (k : String) (v : RollupEntry) (u : String) (sE fE : Int)
    (h : rollupLoop ap = (ws, none)) (hmem : (k, v) ∈ ap)
    (hu : v.startDate = some u) (hne : u ≠ "")
    (hps : strptime_tz u = some sE) (hpf : strptime_tz v.finishDate = some fE) :
    GaugeWrite.projectDuration ⟨k, v.project_url, v.project_name, v.finished_number⟩
      (fE - sE) ∈ ws := by
  have hfne : v.finishDate ≠ "" := by
    intro hh
    rw [hh] at hpf
    simp [strptime_tz] at hpf
  have htv : truthyOpt v.startDate = true := by simp [hu, truthyOpt, hne]
  have hbd : build_duration_seconds v.startDate (some v.finishDate)
      = .ok (some (fE - sE)) := by
    rw [hu]
    exact build_duration_seconds_parsed u v.finishDate sE fE hne hfne hps hpf
  induction ap generalizing ws with
  | nil => simp at hmem
  | cons hd rest ih =>
    obtain ⟨k2, v2⟩ := hd
    rcases List.mem_cons.mp hmem with h1 | h2
    · cases h1
      cases hrr : rollupLoop rest with
      | mk ws2 r2 =>
        simp only [rollupLoop, if_pos htv, hbd, gaugeSet, hrr] at h
        cases h
        simp
    · by_cases ht2 : truthyOpt v2.startDate
      · cases hbd2 : build_duration_seconds v2.startDate (some v2.finishDate) with
        | error e =>
          simp only [rollupLoop, if_pos ht2, hbd2] at h
          simp only [Prod.mk.injEq] at h
          exact absurd h.2 (by simp)
        | ok fd =>
          cases hgs : gaugeSet fd with
          | error e =>
            simp only [rollupLoop, if_pos ht2, hbd2, hgs] at h
            simp only [Prod.mk.injEq] at h
            exact absurd h.2 (by simp)
          | ok dv =>
            cases hrr : rollupLoop rest with
            | mk ws2 r2 =>
              simp only [rollupLoop, if_pos ht2, hbd2, hgs, hrr] at h
              simp only [Prod.mk.injEq] at h
              rcases h with ⟨hws, hr⟩
              subst hws
              subst hr
              exact List.mem_cons_of_mem _ (ih ws2 hrr h2)
      · simp only [rollupLoop, if_neg ht2] at h
        exact ih ws h h2

/-- A staged entry whose start date is absent (or empty) contributes no
`project_duration_seconds` write for its project id, provided the staged
keys are distinct (as they are for a Python dict). -/
theorem rollupLoop_skips (ap : RollupMap) (ws : List GaugeWrite)
    (k : String) (v : RollupEntry)
    (hnd : (ap.map Prod.fst).Nodup)
    (h : rollupLoop ap = (ws, none)) (hmem : (k, v) ∈ ap)
    (ht : ¬ truthyOpt v.startDate) (l : ProjectLabels) (d : Int)
    (hl : l.projectId = k) : GaugeWrite.projectDuration l d ∉ ws := by
  induction ap generalizing ws with
  | nil => simp at hmem
  | cons hd rest ih =>
    obtain ⟨k2, v2⟩ := hd
    simp only [List.map_cons, List.nodup_cons] at hnd
    rcases List.mem_cons.mp hmem with h1 | h2
    · cases h1
      simp only [rollupLoop, if_neg ht] at h
      intro hw
      have hin := rollupLoop_write_key rest ws none h l d hw
      rw [hl] at hin
      exact hnd.1 hin
    · have hk2ne : k2 ≠ k := by
        intro he
        subst he
        exact hnd.1 (List.mem_map.mpr ⟨(k2, v), h2, rfl⟩)
      by_cases ht2 : truthyOpt v2.startDate
      · cases hbd2 : build_duration_seconds v2.startDate (some v2.finishDate) with
        | error e =>
          simp only [rollupLoop, if_pos ht2, hbd2] at h
          simp only [Prod.mk.injEq] at h
          exact absurd h.2 (by simp)
        | ok fd =>
          cases hgs : gaugeSet fd with
          | error e =>
            simp only [rollupLoop, if_pos ht2, hbd2, hgs] at h
            simp only [Prod.mk.injEq] at h
            exact absurd h.2 (by simp)
          | ok dv =>
            cases hrr : rollupLoop rest with
            | mk ws2 r2 =>
              simp only [rollupLoop, if_pos ht2, hbd2, hgs, hrr] at h
              simp only [Prod.mk.injEq] at h
              rcases h with ⟨hws, hr⟩
              subst hws
              subst hr
              intro hw
              rcases List.mem_cons.mp hw with hh | hh
              · apply hk2ne
                have := congrArg (fun w => match w with
                  | GaugeWrite.projectDuration lab _ => lab.projectId
                  | _ => "") hh
                simp at this
                rw [← hl, this]
              · exact ih ws2 hnd.2 hrr h2 hh
      · simp only [rollupLoop, if_neg ht2] at h
        exact ih ws hnd.2 h h2

/-- Shape of `processConfig` on a non-archived config whose latest build
has a non-`SUCCESS` status: exactly one status-gauge write, no staging. -/
theorem processConfig_nonsuccess (cfgs : Settings) (api : Api)
    (template_id : String) (cfg : BuildConfig) (archived : List String)
    (ap : RollupMap) (lb : BuildJson) (st : String)
    (hna : cfg.projectId ∉ archived)
    (hlb : get_last_build_status api cfg.id = .ok lb)
    (hst : lb.status = some st) (hns : st ≠ "SUCCESS") :
    processConfig cfgs api template_id cfg archived ap
      = .ok ([.buildStatus ⟨cfg.name, template_id, cfg.id, cfg.webUrl⟩
               (status_value st)], ap) := by
  simp [processConfig, hna, hlb, getField, hst, hns]

/-- Shape of `processConfig` on a non-archived config whose latest build
succeeded and whose duration and staging succeed: a duration write then
a status write, and the staged map. -/
theorem processConfig_success (cfgs : Settings) (api : Api)
    (template_id : String) (cfg : BuildConfig) (archived : List String)
    (ap ap2 : RollupMap) (lb : BuildJson) (d : Int)
    (hna : cfg.projectId ∉ archived)
    (hlb : get_last_build_status api cfg.id = .ok lb)
    (hst : lb.status = some "SUCCESS")
    (hbd : build_duration_seconds lb.startDate lb.finishDate = .ok (some d))
    (hstage : stageRollup cfgs api template_id cfg lb ap = .ok ap2) :
    processConfig cfgs api template_id cfg archived ap
      = .ok ([.buildDuration ⟨cfg.name, template_id, cfg.id, cfg.webUrl⟩ d,
              .buildStatus ⟨cfg.name, template_id, cfg.id, cfg.webUrl⟩
                (status_value "SUCCESS")], ap2) := by
  simp [processConfig, hna, hlb, getField, hst, hbd, hstage, gaugeSet]

/-- Whenever `processConfig` completes without raising on a non-archived
config, the status gauge was written with `status_value` of the latest
build's status. -/
theorem processConfig_status_mem (cfgs : Settings) (api : Api)
    (template_id : String) (cfg : BuildConfig) (archived : List String)
    (ap ap2 : RollupMap) (ws : List GaugeWrite) (lb : BuildJson) (st : String)
    (hrun : processConfig cfgs api template_id cfg archived ap = .ok (ws, ap2))
    (hna : cfg.projectId ∉ archived)
    (hlb : get_last_build_status api cfg.id = .ok lb)
    (hst : lb.status = some st) :
    GaugeWrite.buildStatus ⟨cfg.name, template_id, cfg.id, cfg.webUrl⟩
      (status_value st) ∈ ws := by
  by_cases hsu : st = "SUCCESS"
  · subst hsu
    cases hbd : build_duration_seconds lb.startDate lb.finishDate with
    | error e => simp [processConfig, hna, hlb, getField, hst, hbd] at hrun
    | ok duration =>
      cases hstage : stageRollup cfgs api template_id cfg lb ap with
      | error e => simp [processConfig, hna, hlb, getField, hst, hbd, hstage] at hrun
      | ok ap3 =>
        cases duration with
        | none =>
          simp [processConfig, hna, hlb, getField, hst, hbd, hstage, gaugeSet] at hrun
        | some d =>
          rw [processConfig_success cfgs api template_id cfg archived ap ap3 lb d
            hna hlb hst hbd hstage] at hrun
          simp only [Except.ok.injEq, Prod.mk.injEq] at hrun
          rw [← hrun.1]
          simp
  · rw [processConfig_nonsuccess cfgs api template_id cfg archived ap lb st
      hna hlb hst hsu] at hrun
    simp only [Except.ok.injEq, Prod.mk.injEq] at hrun
    rw [← hrun.1]
    simp

/-! ## Claim C8 â archived-project filtering. -/

/-- C8: a configuration whose `projectId` is in the archived set fetched
at the start of the cycle contributes nothing that cycle: processing it
performs no gauge writes and leaves the rollup staging untouched (for
any API state and any prior staging). -/
theorem c8_archived_config_contributes_nothing
    (cfgs : Settings) (api : Api) (template_id : String) (cfg : BuildConfig)
    (archived_projects : List String) (all_projects : RollupMap)
    (h : cfg.projectId ∈ archived_projects) :
    processConfig cfgs api template_id cfg archived_projects all_projects
      = .ok ([], all_projects) := by
  simp [processConfig, h]

/-- C8 witness: project `P` archived, `cfgC` skipped outright. -/
theorem c8_witness :
    processConfig sampleSettings sampleApi "Stop" cfgC ["P"] [] = .ok ([], []) :=
  c8_archived_config_contributes_nothing sampleSettings sampleApi "Stop" cfgC
    ["P"] [] (by decide)

/-! ## Claim C9 â required configuration at startup. -/

/-- C9: with the numeric settings present-or-defaulted, startup raises
`EnvironmentError` (abnormal, non-zero exit before the metrics server
and before the polling thread) exactly when the CI base URL, the token,
or the parsed template-id list is missing/falsy; otherwise the process
starts the metrics server and the polling loop and runs until killed. -/
theorem c9_startup_requires_config (env : Env) (interval port : Int)
    (hi : moduleInterval env = some interval) (hp : modulePort env = some port) :
    ((¬ truthyOpt (env "TEAMCITY_URL") ∨ ¬ truthyOpt (env "TEAMCITY_TOKEN")
        ∨ parseEnvList ((env "TEAMCITY_TEMPLATE_IDS").getD "") = []) →
      startup env = .configError) ∧
    ((truthyOpt (env "TEAMCITY_URL") ∧ truthyOpt (env "TEAMCITY_TOKEN")
        ∧ parseEnvList ((env "TEAMCITY_TEMPLATE_IDS").getD "") ≠ []) →
      startup env = .started port interval) := by
  constructor
  · intro h
    simp only [startup, hi, hp]
    rw [if_pos h]
  · rintro ⟨h1, h2, h3⟩
    simp only [startup, hi, hp]
    rw [if_neg]
    rintro (hc | hc | hc)
    · exact hc h1
    · exact hc h2
    · exact h3 hc

/-- C9 witness: an environment lacking `TEAMCITY_URL` refuses to start;
one carrying the three required settings starts with the default port
and interval. -/
theorem c9_witness :
    startup envMissingUrl = .configError ∧ startup envFull = .started 8000 84600 :=
  ⟨(c9_startup_requires_config envMissingUrl 84600 8000 rfl rfl).1
      (by left; decide),
   (c9_startup_requires_config envFull 84600 8000 rfl rfl).2
      (by refine ⟨by decide, by decide, by decide⟩)⟩

/-! ## Claim C10 â defaults and integer parsing of interval and port. -/

/-- C10: with `SCRAPE_INTERVAL` unset the inter-cycle sleep defaults to
84600 seconds (and not 86400); with `METRICS_PORT` unset the port
defaults to 8000; a non-integer value for either makes the module-level
`int()` raise, so startup fails before anything is served. -/
theorem c10_interval_port_defaults (env : Env) (s : String) :
    (env "SCRAPE_INTERVAL" = none →
      moduleInterval env = some 84600 ∧ moduleInterval env ≠ some 86400) ∧
    (env "METRICS_PORT" = none → modulePort env = some 8000) ∧
    (env "SCRAPE_INTERVAL" = some s → pyInt s = none → startup env = .initError) ∧
    (env "METRICS_PORT" = some s → pyInt s = none → startup env = .initError) := by
    refine ⟨?_, ?_, ?_, ?_⟩
    · intro h
      constructor
      · simp [moduleInterval, h]
      · simp [moduleInterval, h]
    · intro h
      simp only [modulePort, h]
      rfl
    · intro h hbad
      have hmi : moduleInterval env = none := by simp [moduleInterval, h, hbad]
      simp [startup, hmi]
    · intro h hbad
      cases hmi : moduleInterval env with
      | none => simp [startup, hmi]
      | some i =>
        have hmp : modulePort env = none := by simp [modulePort, h, hbad]
        simp [startup, hmi, hmp]

/-- C10 witness: the empty environment gets interval 84600 and port
8000; `SCRAPE_INTERVAL=daily` and `METRICS_PORT=80a0` each abort
startup. -/
theorem c10_witness :
    moduleInterval envEmpty = some 84600 ∧ modulePort envEmpty = some 8000
      ∧ startup envBadInterval = .initError ∧ startup envBadPort = .initError :=
  ⟨((c10_interval_port_defaults envEmpty "x").1 rfl).1,
   (c10_interval_port_defaults envEmpty "x").2.1 rfl,
   (c10_interval_port_defaults envBadInterval "daily").2.2.1 rfl (by decide),
   (c10_interval_port_defaults envBadPort "80a0").2.2.2 rfl (by decide)⟩

/-! ## Claim C1 â the build_status gauge value. -/

/-- C1 counterexample: `ERROR` is a TeamCity non-success terminal build
status distinct from `FAILURE` (builds failing on infrastructure
errors), so the claim maps it to 0; the status dict
`{"SUCCESS": 1, "FAILURE": 0, "NO_BUILDS": -1}.get(status, -1)` instead
defaults it, like every string outside its three keys, to -1. -/
theorem c1_counterexample_error_status :
    status_value "ERROR" = -1 ∧ ¬ status_value "ERROR" = 0 := by
  constructor
  · rfl
  · decide

/-- C1 (amended): the value written to the build_status gauge is always
in {1, 0, -1}; it is 1 exactly for `SUCCESS`, 0 exactly for
`FAILURE`, and -1 exactly for every other status string (`NO_BUILDS`
and any unrecognized or other non-success terminal status such as
`ERROR`); and every completed processing of a non-archived config
writes exactly this value for the latest build's status. -/
theorem c1_status_gauge_value (st : String) :
    (status_value st = 1 ∨ status_value st = 0 ∨ status_value st = -1) ∧
    (status_value st = 1 ↔ st = "SUCCESS") ∧
    (status_value st = 0 ↔ st = "FAILURE") ∧
    (status_value st = -1 ↔ (st ≠ "SUCCESS" ∧ st ≠ "FAILURE")) ∧
    (∀ (cfgs : Settings) (api : Api) (template_id : String) (cfg : BuildConfig)
      (archived : List String) (ap ap2 : RollupMap) (ws : List GaugeWrite)
      (lb : BuildJson),
      processConfig cfgs api template_id cfg archived ap = .ok (ws, ap2) →
      cfg.projectId ∉ archived →
      get_last_build_status api cfg.id = .ok lb →
      lb.status = some st →
      GaugeWrite.buildStatus ⟨cfg.name, template_id, cfg.id, cfg.webUrl⟩
        (status_value st) ∈ ws) := by
  refine ⟨?_, ?_, ?_, ?_, ?_⟩
  · by_cases h1 : st = "SUCCESS" <;> by_cases h2 : st = "FAILURE" <;>
      simp [status_value, h1, h2]
  · by_cases h1 : st = "SUCCESS" <;> by_cases h2 : st = "FAILURE" <;>
      simp [status_value, h1, h2]
  · by_cases h1 : st = "SUCCESS" <;> by_cases h2 : st = "FAILURE" <;>
      simp [status_value, h1, h2]
  · by_cases h1 : st = "SUCCESS" <;> by_cases h2 : st = "FAILURE" <;>
      simp [status_value, h1, h2]
  · intro cfgs api template_id cfg archived ap ap2 ws lb hrun hna hlb hst
    exact processConfig_status_mem cfgs api template_id cfg archived ap ap2 ws
      lb st hrun hna hlb hst

/-- C1 witness: in the sample cycle, `cfgC`'s SUCCESS build writes
status value 1 to the status gauge. -/
theorem c1_witness :
    GaugeWrite.buildStatus ⟨"Config C", "Stop", "C", "http://tc/C"⟩
      (status_value "SUCCESS")
      ∈ [GaugeWrite.buildDuration ⟨"Config C", "Stop", "C", "http://tc/C"⟩ 300,
         GaugeWrite.buildStatus ⟨"Config C", "Stop", "C", "http://tc/C"⟩ 1] :=
  (c1_status_gauge_value "SUCCESS").2.2.2.2 sampleSettings sampleApi
    "Stop" cfgC []
    []
    [("P", ⟨some "20240102T090000+0000", "20240102T100500+0000", "Project P",
        some "http://tc/P", "42", "2"⟩)]
    [GaugeWrite.buildDuration ⟨"Config C", "Stop", "C", "http://tc/C"⟩ 300,
     GaugeWrite.buildStatus ⟨"Config C", "Stop", "C", "http://tc/C"⟩ 1]
    buildB2 (by rfl) (by decide) (by rfl) rfl

/-! ## Claim C2 — the build_duration_seconds gauge. -/

/-- C2: for a non-archived config whose latest build has status
`SUCCESS` with present, parseable timestamps, a completed processing
writes the duration gauge with exactly `finishDate − startDate` in whole
(epoch) seconds — negative spans included, unclamped; for a latest build
of any other status, no duration write is performed for that config in
that cycle. -/
theorem c2_duration_gauge (cfgs : Settings) (api : Api) (template_id : String)
    (cfg : BuildConfig) (archived : List String) (ap ap2 : RollupMap)
    (ws : List GaugeWrite) (lb : BuildJson) (st sRaw fRaw : String) (sE fE : Int)
    (hrun : processConfig cfgs api template_id cfg archived ap = .ok (ws, ap2))
    (hna : cfg.projectId ∉ archived)
    (hlb : get_last_build_status api cfg.id = .ok lb)
    (hst : lb.status = some st) :
    (st = "SUCCESS" → lb.startDate = some sRaw → lb.finishDate = some fRaw →
      sRaw ≠ "" → fRaw ≠ "" →
      strptime_tz sRaw = some sE → strptime_tz fRaw = some fE →
      GaugeWrite.buildDuration ⟨cfg.name, template_id, cfg.id, cfg.webUrl⟩
        (fE - sE) ∈ ws) ∧
    (st ≠ "SUCCESS" → ∀ (l : BuildLabels) (v : Int),
      GaugeWrite.buildDuration l v ∉ ws) := by
  constructor
  · intro hsu hsdd hfdd hs hf hps hpf
    subst hsu
    have hbd : build_duration_seconds lb.startDate lb.finishDate
        = .ok (some (fE - sE)) := by
      rw [hsdd, hfdd]
      exact build_duration_seconds_parsed sRaw fRaw sE fE hs hf hps hpf
    cases hstage : stageRollup cfgs api template_id cfg lb ap with
    | error e => simp [processConfig, hna, hlb, getField, hst, hbd, hstage] at hrun
    | ok ap3 =>
      rw [processConfig_success cfgs api template_id cfg archived ap ap3 lb
        (fE - sE) hna hlb hst hbd hstage] at hrun
      simp only [Except.ok.injEq, Prod.mk.injEq] at hrun
      rw [← hrun.1]
      simp
  · intro hns l v
    rw [processConfig_nonsuccess cfgs api template_id cfg archived ap lb st
      hna hlb hst hns] at hrun
    simp only [Except.ok.injEq, Prod.mk.injEq] at hrun
    rw [← hrun.1]
    simp

/-- C2 witness: `cfgN`'s reversed timestamps yield the unclamped
duration -300 on the gauge; `cfgF`'s FAILURE build gets no duration
write. -/
theorem c2_witness :
    GaugeWrite.buildDuration ⟨"Config N", "T1", "N", "http://tc/N"⟩ (-300)
      ∈ [GaugeWrite.buildDuration ⟨"Config N", "T1", "N", "http://tc/N"⟩ (-300),
         GaugeWrite.buildStatus ⟨"Config N", "T1", "N", "http://tc/N"⟩ 1] ∧
    GaugeWrite.buildDuration ⟨"Config F", "T1", "F", "http://tc/F"⟩ 180
      ∉ [GaugeWrite.buildStatus ⟨"Config F", "T1", "F", "http://tc/F"⟩ 0] :=
  ⟨(c2_duration_gauge plainSettings apiNeg "T1" cfgN [] [] []
      [GaugeWrite.buildDuration ⟨"Config N", "T1", "N", "http://tc/N"⟩ (-300),
       GaugeWrite.buildStatus ⟨"Config N", "T1", "N", "http://tc/N"⟩ 1]
      buildNeg "SUCCESS" "20240102T100500+0000" "20240102T100000+0000"
      1704189900 1704189600 (by rfl) (by decide) (by rfl) rfl).1
      rfl rfl rfl (by decide) (by decide) (by rfl) (by rfl),
   (c2_duration_gauge plainSettings apiFail "T1" cfgF [] [] []
      [GaugeWrite.buildStatus ⟨"Config F", "T1", "F", "http://tc/F"⟩ 0]
      buildFail "FAILURE" "x" "y" 0 0 (by rfl) (by decide) (by rfl) rfl).2
      (by decide) ⟨"Config F", "T1", "F", "http://tc/F"⟩ 180⟩

/-! ## Claim C3 — single-hop chain resolution. -/

/-- C3: when every direct upstream node carries a `buildTypeId` and a
`startDate` and its template lookup does not raise, chain resolution
returns the `startDate` of the first node (in CI response order) whose
configuration carries a start-set template, and `none` when no direct
node matches; and the result depends only on the one-hop upstream
response for this build id together with the template endpoint — deeper
ancestry is never consulted. -/
theorem c3_chain_resolution (cfgs : Settings) (api : Api) (build_id : String)
    (nodes : List BuildJson)
    (hup : api.builds_upstream build_id = .ok (some nodes))
    (hbt : ∀ n ∈ nodes, ∃ bt, n.buildTypeId = some bt ∧
        ∃ r, get_template_names_for_build_type_id cfgs api bt = .ok r)
    (hsd : ∀ n ∈ nodes, ∃ sd, n.startDate = some sd) :
    get_start_date_by_last_build_id cfgs api build_id
      = .ok ((nodes.find? (nodeMatches cfgs api)).bind (fun n => n.startDate)) ∧
    (∀ api2 : Api,
      api2.builds_upstream build_id = api.builds_upstream build_id →
      (∀ bt, api2.templates_of_buildType bt = api.templates_of_buildType bt) →
      get_start_date_by_last_build_id cfgs api2 build_id
        = get_start_date_by_last_build_id cfgs api build_id) := by
  constructor
  · simp only [get_start_date_by_last_build_id, hup]
    exact startDateLoop_eq_find cfgs api nodes hbt hsd
  · intro api2 h1 h2
    simp only [get_start_date_by_last_build_id, h1, hup]
    exact startDateLoop_congr cfgs api api2 h2 nodes

/-- C3 witness: in `twoHopApi` the start-templated build sits two hops
above build 200, so resolution from 200 yields `none` (shallow search),
while from the middle build 150 — one hop below the start — it yields
that build's startDate. -/
theorem c3_witness :
    get_start_date_by_last_build_id sampleSettings twoHopApi "200" = .ok none ∧
    get_start_date_by_last_build_id sampleSettings twoHopApi "150"
      = .ok (some "20240102T080000+0000") := by
  constructor
  · exact ((c3_chain_resolution sampleSettings twoHopApi "200" [nodeMid] rfl
      (by
        intro n hn
        simp only [List.mem_singleton] at hn
        subst hn
        exact ⟨"midBT", rfl, none, rfl⟩)
      (by
        intro n hn
        simp only [List.mem_singleton] at hn
        subst hn
        exact ⟨"20240102T090000+0000", rfl⟩)).1).trans (by rfl)
  · exact ((c3_chain_resolution sampleSettings twoHopApi "150" [nodeDeepStart] rfl
      (by
        intro n hn
        simp only [List.mem_singleton] at hn
        subst hn
        exact ⟨"startBT", rfl, some "Start", rfl⟩)
      (by
        intro n hn
        simp only [List.mem_singleton] at hn
        subst hn
        exact ⟨"20240102T080000+0000", rfl⟩)).1).trans (by rfl)

/-! ## Claim C4 — fault isolation of the cycle. -/

/-- C4 (code bug): a fault in step 1 (`get_archived_projects()`, main.py
line 260) is raised *outside* the `try`, escapes
`fetch_and_update_metrics`, and terminates the polling loop — requesting
three cycles yields only the one escaped cycle (first two conjuncts).
By contrast, a fault raised inside the `try` (here: the step-2 config
listing of the second template) is caught: the status write performed
earlier in the same cycle is retained and the next cycle still runs
(last two conjuncts). -/
theorem c4_step1_fault_escapes :
    runCycle twoTemplateSettings apiArchFail
      = ([], .escaped (.httpError "500 Internal Server Error")) ∧
    runLoop twoTemplateSettings (fun _ => apiArchFail) 3
      = [([], .escaped (.httpError "500 Internal Server Error"))] ∧
    runCycle twoTemplateSettings apiMidFail
      = ([.buildStatus ⟨"Config F", "T1", "F", "http://tc/F"⟩ 0],
         .caught (.httpError "503 Service Unavailable")) ∧
    runLoop twoTemplateSettings (fun _ => apiMidFail) 2
      = [([.buildStatus ⟨"Config F", "T1", "F", "http://tc/F"⟩ 0],
          .caught (.httpError "503 Service Unavailable")),
         ([.buildStatus ⟨"Config F", "T1", "F", "http://tc/F"⟩ 0],
          .caught (.httpError "503 Service Unavailable"))] :=
  ⟨rfl, rfl, rfl, rfl⟩

/-! ## Claim C5 — missing timestamps on a SUCCESS build. -/

/-- C5 counterexample: config `A`'s latest build succeeded but lacks
`finishDate`; `build_duration_seconds` returns `None`, the cycle passes
it to `BUILD_DURATION_GAUGE.set`, and `float(None)` raises `TypeError`,
aborting the cycle before config `F` of the same template is processed
(no write at all happens). The second conjunct shows the very same cycle
without config `A` does write config `F`'s status gauge — so one
config's missing timestamp did abort the rest of the cycle. -/
theorem c5_counterexample_missing_finish_aborts :
    runCycle plainSettings apiNoFinish
      = ([], .caught (.typeError "float argument must not be NoneType")) ∧
    runCycle plainSettings apiOnlyFail
      = ([.buildStatus ⟨"Config F", "T1", "F", "http://tc/F"⟩ 0], .normal) :=
  ⟨rfl, rfl⟩

/-- C5 (amended): `build_duration_seconds` itself handles an absent (or
empty) `startDate`/`finishDate` locally, returning `None` without
raising; but for a `SUCCESS` build the cycle then calls
`Gauge.set(None)`, whose `float()` coercion raises `TypeError`, so a
config with a missing timestamp aborts the remainder of its cycle (the
fault is caught and logged by the cycle's `except` handler). -/
theorem c5_missing_timestamp_behaviour :
    (∀ sd fd : Option String, ¬ truthyOpt sd ∨ ¬ truthyOpt fd →
      build_duration_seconds sd fd = .ok none) ∧
    (∀ (cfgs : Settings) (api : Api) (template_id : String) (cfg : BuildConfig)
      (archived : List String) (ap : RollupMap) (lb : BuildJson),
      cfg.projectId ∉ archived →
      get_last_build_status api cfg.id = .ok lb →
      lb.status = some "SUCCESS" →
      ¬ truthyOpt lb.finishDate →
      template_id ∉ cfgs.STOP_PROJECT_CHAIN →
      processConfig cfgs api template_id cfg archived ap
        = .error (.typeError "float argument must not be NoneType")) := by
  constructor
  · intro sd fd h
    rcases h with h | h <;> simp [build_duration_seconds, h]
  · intro cfgs api template_id cfg archived ap lb hna hlb hst hfd hstop
    have hbd : build_duration_seconds lb.startDate lb.finishDate = .ok none := by
      simp [build_duration_seconds, hfd]
    have hstage : stageRollup cfgs api template_id cfg lb ap = .ok ap := by
      simp [stageRollup, hstop]
    simp [processConfig, hna, hlb, getField, hst, hbd, hstage, gaugeSet]

/-- C5 witness: the duration of a build without `finishDate` is `None`
(no exception from the computation itself), and processing `cfgA` with
such a build raises the gauge TypeError. -/
theorem c5_witness :
    build_duration_seconds (some "20240102T100000+0000") none = .ok none ∧
    processConfig plainSettings apiNoFinish "T1" cfgA [] []
      = .error (.typeError "float argument must not be NoneType") :=
  ⟨c5_missing_timestamp_behaviour.1 (some "20240102T100000+0000") none
      (by decide),
   c5_missing_timestamp_behaviour.2 plainSettings apiNoFinish "T1" cfgA [] []
      buildNoFinish (by decide) (by rfl) rfl (by decide) (by decide)⟩

/-! ## Claim C6 — chain resolution with no upstream builds. -/

/-- C6 (code bug): for a build whose snapshot-dependency response
carries no `build` list, `get_upstream_chain_nodes` returns `None` (as
its docstring states) and the `for` loop over it in
`get_start_date_by_last_build_id` raises `TypeError` — instead of
returning the documented absent result — aborting the remainder of the
cycle through the `except` handler. -/
theorem c6_no_upstream_raises :
    get_start_date_by_last_build_id sampleSettings idleApi "100"
      = .error (.typeError "NoneType object is not iterable") := rfl

/-! ## Claim C7 — rollup overwrite and emission. -/

/-- C7: (1) a second staging under the same projectId overwrites the
first with no merge; (2) a completed SUCCESS processing of a
stop-template config stages, under its projectId, exactly the entry
built from the chain-resolved start date and this build's finish
date/number/id, replacing any previous entry; (3) a rollup loop that
completes emits `project_duration_seconds` for precisely the staged
entries whose chain start date resolved (truthy), with value
`finish − start` in whole epoch seconds, and emits nothing for a
projectId whose staged entry has an absent start date. -/
theorem c7_rollup_overwrite_and_emission :
    (∀ (ap : RollupMap) (k : String) (v1 v2 : RollupEntry),
      lookupAssoc (dictSet (dictSet ap k v1) k v2) k = some v2) ∧
    (∀ (cfgs : Settings) (api : Api) (template_id : String) (cfg : BuildConfig)
      (archived : List String) (ap ap2 : RollupMap) (ws : List GaugeWrite)
      (lb : BuildJson) (bid fd num : String) (sd purl : Option String),
      processConfig cfgs api template_id cfg archived ap = .ok (ws, ap2) →
      cfg.projectId ∉ archived →
      get_last_build_status api cfg.id = .ok lb →
      lb.status = some "SUCCESS" →
      template_id ∈ cfgs.STOP_PROJECT_CHAIN →
      lb.id = some bid →
      get_start_date_by_last_build_id cfgs api bid = .ok sd →
      lb.finishDate = some fd →
      api.project_webUrl cfg.projectId = .ok purl →
      lb.number = some num →
      ap2 = dictSet ap cfg.projectId ⟨sd, fd, cfg.projectName, purl, num, bid⟩ ∧
      lookupAssoc ap2 cfg.projectId
        = some ⟨sd, fd, cfg.projectName, purl, num, bid⟩) ∧
    (∀ (ap : RollupMap) (ws : List GaugeWrite) (k : String) (v : RollupEntry),
      (ap.map Prod.fst).Nodup →
      rollupLoop ap = (ws, none) →
      (k, v) ∈ ap →
      ((¬ truthyOpt v.startDate → ∀ (l : ProjectLabels) (d : Int),
          l.projectId = k → GaugeWrite.projectDuration l d ∉ ws) ∧
       (∀ (u : String) (sE fE : Int), v.startDate = some u → u ≠ "" →
          strptime_tz u = some sE → strptime_tz v.finishDate = some fE →
          GaugeWrite.projectDuration
            ⟨k, v.project_url, v.project_name, v.finished_number⟩
            (fE - sE) ∈ ws))) := by
  refine ⟨?_, ?_, ?_⟩
  · intro ap k v1 v2
    exact lookupAssoc_dictSet (dictSet ap k v1) k v2
  · intro cfgs api template_id cfg archived ap ap2 ws lb bid fd num sd purl
      hrun hna hlb hst hstop hbid hsd hfd hpurl hnum
    have hstage : stageRollup cfgs api template_id cfg lb ap
        = .ok (dictSet ap cfg.projectId ⟨sd, fd, cfg.projectName, purl, num, bid⟩) := by
      simp [stageRollup, hstop, getField, hbid, hsd, hfd, hpurl, hnum]
    cases hbd : build_duration_seconds lb.startDate lb.finishDate with
    | error e => simp [processConfig, hna, hlb, getField, hst, hbd] at hrun
    | ok duration =>
      cases duration with
      | none =>
        simp [processConfig, hna, hlb, getField, hst, hbd, hstage, gaugeSet] at hrun
      | some d =>
        rw [processConfig_success cfgs api template_id cfg archived ap _ lb d
          hna hlb hst hbd hstage] at hrun
        simp only [Except.ok.injEq, Prod.mk.injEq] at hrun
        constructor
        · exact hrun.2.symm
        · rw [← hrun.2]
          exact lookupAssoc_dictSet ap cfg.projectId _
  · intro ap ws k v hnd h hmem
    constructor
    · intro ht l d hl
      exact rollupLoop_skips ap ws k v hnd h hmem ht l d hl
    · intro u sE fE hu hne hps hpf
      exact rollupLoop_emits ap ws k v u sE fE h hmem hu hne hps hpf

/-- C7 witness: re-staging project `P` overwrites `entryOld` with
`entryNew`; processing `cfgC` over a prior staging for `P` leaves
exactly the freshly built entry under `P`; and the rollup loop over
`entryNew` (resolved start) and `entryNoStart` (unresolved) emits
exactly one write — `P`'s 3900-second span — and nothing for `Q`. -/
theorem c7_witness :
    lookupAssoc (dictSet (dictSet [] "P" entryOld) "P" entryNew) "P"
      = some entryNew ∧
    lookupAssoc
      [("P", ⟨some "20240102T090000+0000", "20240102T100500+0000", "Project P",
        some "http://tc/P", "42", "2"⟩)] "P"
      = some ⟨some "20240102T090000+0000", "20240102T100500+0000", "Project P",
        some "http://tc/P", "42", "2"⟩ ∧
    GaugeWrite.projectDuration
      ⟨"P", some "http://tc/P", "New name", "41"⟩ 3900
      ∈ [GaugeWrite.projectDuration
          ⟨"P", some "http://tc/P", "New name", "41"⟩ 3900] ∧
    GaugeWrite.projectDuration ⟨"Q", none, "Other name", "43"⟩ 5
      ∉ [GaugeWrite.projectDuration
          ⟨"P", some "http://tc/P", "New name", "41"⟩ 3900] := by
  refine ⟨c7_rollup_overwrite_and_emission.1 [] "P" entryOld entryNew, ?_, ?_, ?_⟩
  · exact (c7_rollup_overwrite_and_emission.2.1 sampleSettings sampleApi "Stop"
      cfgC []
      [("P", entryOld)]
      [("P", ⟨some "20240102T090000+0000", "20240102T100500+0000", "Project P",
        some "http://tc/P", "42", "2"⟩)]
      [GaugeWrite.buildDuration ⟨"Config C", "Stop", "C", "http://tc/C"⟩ 300,
       GaugeWrite.buildStatus ⟨"Config C", "Stop", "C", "http://tc/C"⟩ 1]
      buildB2 "2" "20240102T100500+0000" "42"
      (some "20240102T090000+0000") (some "http://tc/P")
      (by rfl) (by decide) (by rfl) rfl (by decide) rfl (by rfl) rfl (by rfl)
      rfl).2
  · exact (c7_rollup_overwrite_and_emission.2.2
      [("P", entryNew), ("Q", entryNoStart)]
      [GaugeWrite.projectDuration
        ⟨"P", some "http://tc/P", "New name", "41"⟩ 3900]
      "P" entryNew (by decide) (by rfl) (by decide)).2
      "20240102T091000+0000" 1704186600 1704190500 rfl (by decide)
      (by rfl) (by rfl)
  · exact (c7_rollup_overwrite_and_emission.2.2
      [("P", entryNew), ("Q", entryNoStart)]
      [GaugeWrite.projectDuration
        ⟨"P", some "http://tc/P", "New name", "41"⟩ 3900]
      "Q" entryNoStart (by decide) (by rfl) (by decide)).1
      (by decide) ⟨"Q", none, "Other name", "43"⟩ 5 rfl

end TeamcityExporter
